import Mathlib

/-!
# Shallow embedding of the penrose drawing module (`src/draw/mod.rs`)

The module is a thin drawing layer over three external services:

* the X display server, addressed through `xcb` requests,
* the cairo 2D-rendering backend (surfaces, contexts, translations),
* the pango text-shaping backend (font descriptions, layouts, pixel
  measurement).

The Rust code under `src/draw/mod.rs` is embedded here definition by
definition.  The external services are opaque collaborators: they are
modelled by a `Backend` record of oracles (atom interning, visual/surface
creation success, layout creation success, and a text-measurement function)
together with explicit state (the list of protocol requests sent on the
connection, and the cairo translation/render state).  Floating-point
(`f64`) quantities — padding and cairo coordinates — are modelled exactly
by rationals; machine-integer casts (`usize as i32`, `i32 as u16`,
`f64 as usize`) are modelled explicitly with wrapping / truncation /
saturation as in Rust.
-/

namespace Penrose

/-- Constant `pango::SCALE` — pango's fixed-point scale factor (1024). -/
def pangoSCALE : Int := 1024

/-- Model of `pango::FontDescription`.  `FontDescription::from_string`
stores the source string; `set_size` overrides the size field.  All other
pango internals are irrelevant to this module. -/
structure FontDescription where
  source : String
  size : Option Int
deriving DecidableEq, Repr

/-- Function `FontDescription::from_string(s)` — parse a description from a string;
no size has been `set_size`-overridden yet. -/
def FontDescription.from_string (s : String) : FontDescription :=
  { source := s, size := none }

/-- Function `FontDescription::set_size` (mutation modelled functionally). -/
def FontDescription.set_size (d : FontDescription) (v : Int) : FontDescription :=
  { d with size := some v }

/-- Struct `Color { r, g, b }` — the Rust struct holds three `f64` channels,
modelled exactly as rationals. -/
structure Color where
  r : ℚ
  g : ℚ
  b : ℚ
deriving DecidableEq, Repr

/-- Function `Color::new_from_hex`: extract the three 8-bit channels of a packed
`0xRRGGBB` `u32` and normalise each by 255.0. -/
def Color.new_from_hex (hex : Nat) : Color :=
  { r := (((hex &&& 0xFF0000) >>> 16 : Nat) : ℚ) / 255
    g := (((hex &&& 0x00FF00) >>> 8 : Nat) : ℚ) / 255
    b := ((hex &&& 0x0000FF : Nat) : ℚ) / 255 }

/-- Accessor `Color::rgb`. -/
def Color.rgb (c : Color) : ℚ × ℚ × ℚ :=
  (c.r, c.g, c.b)

/-- Enum `WindowType` — EWMH window type. -/
inductive WindowType
  | Dock
  | Menu
  | Normal
deriving DecidableEq, Repr

/-- Function `WindowType::as_ewmh_str`. -/
def WindowType.as_ewmh_str : WindowType → String
  | .Dock => "_NET_WM_WINDOW_TYPE_DOCK"
  | .Menu => "_NET_WM_WINDOW_TYPE_MENU"
  | .Normal => "_NET_WM_WINDOW_TYPE_NORMAL"

/-- Type `WinId` (`u32` window handle). -/
abbrev WinId := Nat

/-- Requests issued on the xcb connection, in order.  `createWindow`
records the id and the `u16` width/height arguments (the remaining
arguments — parent root, position `(0,0)`, border 0, class, black-pixel
background, exposure event mask — are constants in the source and carry no
information for the properties proved here). -/
inductive XRequest
  | createWindow (id : WinId) (width height : Nat)
  | internAtom (name : String)
  | changeProperty (id : WinId) (prop typ : Nat) (data : String)
  | mapWindow (id : WinId)
  | unmapWindow (id : WinId)
  | flush
deriving DecidableEq, Repr

/-- State of the xcb connection: the id generator (`generate_id`) and the
ordered list of requests sent so far. -/
structure XcbState where
  nextId : Nat
  requests : List XRequest
deriving DecidableEq, Repr

/-- The opaque external services (X server, cairo, pango), as oracles.

`measure fd s` is `Layout::get_pixel_size` for a layout whose font
description is `fd` and whose text is `s`; at the point the source calls
`get_pixel_size`, the layout always has end-ellipsization enabled and no
width/height constraint, so those arguments are omitted. -/
structure Backend where
  internAtomOracle : String → Option Nat
  numScreens : Nat
  visualOk : Bool
  surfaceOk : Bool
  layoutOk : Bool
  measure : Option FontDescription → String → Int × Int

/-- Rust `w as i32` for a `usize` value `w`: truncate to 64→32 bits and
reinterpret as two's-complement signed. -/
def usizeToI32 (w : Nat) : Int :=
  let v : Nat := w % 2 ^ 32
  if v < 2 ^ 31 then (v : Int) else (v : Int) - 2 ^ 32

/-- Rust `x as u16` for an `i32` value `x`: truncate to the low 16 bits
(two's complement). -/
def i32ToU16 (x : Int) : Nat :=
  (x % (2 ^ 16 : Int)).toNat

/-- Rust `q as usize` for an `f64` value `q`: truncate toward zero,
saturating at `0` below and at `usize::MAX` above. -/
def f64ToUsize (q : ℚ) : Nat :=
  min (Int.toNat ⌊max q 0⌋) (2 ^ 64 - 1)

/-- Function `intern_atom(conn, name)`: send an InternAtom request and wait for the
reply; the oracle decides whether the reply succeeds.  The request is on
the wire in either case. -/
def intern_atom (bk : Backend) (st : XcbState) (name : String) :
    XcbState × Except String Nat :=
  let st' : XcbState := { st with requests := st.requests ++ [.internAtom name] }
  match bk.internAtomOracle name with
  | some a => (st', .ok a)
  | none => (st', .error ("unable to intern xcb atom " ++ name))

/-- Function `create_window(conn, screen, window_type, width, height)`:
generate an id, send the create-window request, set the
`_NET_WM_WINDOW_TYPE` property to the EWMH string of `window_type`
(interning the two atoms first), map the window and flush. -/
def create_window (bk : Backend) (st : XcbState) (window_type : WindowType)
    (width height : Nat) : XcbState × Except String WinId :=
  let id := st.nextId
  let st1 : XcbState :=
    { nextId := st.nextId + 1
      requests := st.requests ++ [.createWindow id width height] }
  match intern_atom bk st1 "_NET_WM_WINDOW_TYPE" with
  | (st2, .error e) => (st2, .error e)
  | (st2, .ok prop) =>
    match intern_atom bk st2 "UTF8_STRING" with
    | (st3, .error e) => (st3, .error e)
    | (st3, .ok typ) =>
      let st4 : XcbState :=
        { st3 with requests := st3.requests ++
            [.changeProperty id prop typ window_type.as_ewmh_str] }
      let st5 : XcbState := { st4 with requests := st4.requests ++ [.mapWindow id] }
      let st6 : XcbState := { st5 with requests := st5.requests ++ [.flush] }
      (st6, .ok id)

/-- Model of `cairo::XCBSurface`: the drawable it is bound to and the
`i32` dimensions it was created (and `set_size`-confirmed) with. -/
structure XCBSurface where
  drawable : WinId
  width : Int
  height : Int
deriving DecidableEq, Repr

/-- Function `new_cairo_surface(conn, screen, window_type, width, height)`:
create the server-side window with the dimensions cast to `u16`, look up
the screen's visual type, then bind a cairo surface of the `i32`
dimensions to the window. -/
def new_cairo_surface (bk : Backend) (st : XcbState) (window_type : WindowType)
    (width height : Int) : XcbState × Except String (WinId × XCBSurface) :=
  match create_window bk st window_type (i32ToU16 width) (i32ToU16 height) with
  | (st', .error e) => (st', .error e)
  | (st', .ok id) =>
    if bk.visualOk then
      if bk.surfaceOk then
        (st', .ok (id, { drawable := id, width := width, height := height }))
      else (st', .error "Error creating surface")
    else (st', .error "unable to get screen visual type")

/-- Model of `cairo::Context`: the surface it draws to, the current
translation of user space (cairo CTM restricted to the translations this
module performs), and the ordered render operations, recorded in device
coordinates. -/
inductive RenderOp
  | setSourceRgb (r g b : ℚ)
  | fillRect (x y w h : ℚ)
  | showLayout (atX atY : ℚ) (fontDesc : Option FontDescription) (text : String)
      (ellipsizeEnd : Bool) (width height : Option Int)
deriving DecidableEq, Repr

/-- Cairo drawing-context state. -/
structure Context where
  surface : XCBSurface
  tx : ℚ
  ty : ℚ
  ops : List RenderOp
deriving DecidableEq, Repr

/-- Constructor `Context::new(surface)`: fresh context, identity transform. -/
def Context.new (s : XCBSurface) : Context :=
  { surface := s, tx := 0, ty := 0, ops := [] }

/-- Method `Context::translate`. -/
def Context.translate (ctx : Context) (x y : ℚ) : Context :=
  { ctx with tx := ctx.tx + x, ty := ctx.ty + y }

/-- Struct `XCBDraw` — connection, font registry, surface registry.  The two
`HashMap`s are modelled as association lists where insertion conses and
lookup takes the first (most recent) binding. -/
structure XCBDraw where
  conn : XcbState
  fonts : List (String × FontDescription)
  surfaces : List (WinId × XCBSurface)
deriving DecidableEq, Repr

/-- Value of `XCBDraw::new()` after a successful connection: empty registries. -/
def XCBDraw.new : XCBDraw :=
  { conn := { nextId := 0, requests := [] }, fonts := [], surfaces := [] }

/-- Struct `XCBDrawContext` — cairo context, active font name, snapshot of the
font registry. -/
structure XCBDrawContext where
  ctx : Context
  font : Option String
  fonts : List (String × FontDescription)
deriving DecidableEq, Repr

namespace Draw

/-- Method `Draw::new_window` for `XCBDraw`: look up screen 0, create window and
surface (dimensions cast `usize as i32`), record the id→surface binding. -/
def new_window (bk : Backend) (d : XCBDraw) (t : WindowType) (w h : Nat) :
    XCBDraw × Except String WinId :=
  if bk.numScreens = 0 then (d, .error "Screen index out of bounds")
  else
    match new_cairo_surface bk d.conn t (usizeToI32 w) (usizeToI32 h) with
    | (st', .error e) => ({ d with conn := st' }, .error e)
    | (st', .ok (id, surface)) =>
      ({ d with conn := st', surfaces := (id, surface) :: d.surfaces }, .ok id)

/-- Method `Draw::register_font` for `XCBDraw`: insert (overwrite) the parsed
description under the name. -/
def register_font (d : XCBDraw) (font_name : String) : XCBDraw :=
  { d with fonts := (font_name, FontDescription.from_string font_name) :: d.fonts }

/-- Method `Draw::context_for` for `XCBDraw`: look up the surface; absent ids
fail; otherwise a fresh cairo context, no active font, and a clone of the
font registry. -/
def context_for (d : XCBDraw) (id : WinId) : Except String XCBDrawContext :=
  match d.surfaces.lookup id with
  | none => .error "uninitilaised window surface"
  | some s => .ok { ctx := Context.new s, font := none, fonts := d.fonts }

/-- Method `Draw::flush` for `XCBDraw`. -/
def flush (d : XCBDraw) : XCBDraw :=
  { d with conn := { d.conn with requests := d.conn.requests ++ [.flush] } }

/-- Method `Draw::map_window` for `XCBDraw` (no registry validation). -/
def map_window (d : XCBDraw) (id : WinId) : XCBDraw :=
  { d with conn := { d.conn with requests := d.conn.requests ++ [.mapWindow id] } }

/-- Method `Draw::unmap_window` for `XCBDraw` (no registry validation). -/
def unmap_window (d : XCBDraw) (id : WinId) : XCBDraw :=
  { d with conn := { d.conn with requests := d.conn.requests ++ [.unmapWindow id] } }

end Draw

/-- Text-rendering errors: the layout object could not be created, or the
`self.fonts.get(font).unwrap()` in `text` panicked. -/
inductive TextError
  | layoutError
  | panicUnwrap
deriving DecidableEq, Repr

namespace DrawContext

/-- Method `DrawContext::font` for `XCBDrawContext`: look up the name in the
snapshot (failing for unknown names), clone the stored description, set
the clone's size to `point_size * pango::SCALE`, record the name as the
active font.  As in the source, the scaled clone is a local that is then
dropped: only the name is stored. -/
def font (c : XCBDrawContext) (font_name : String) (point_size : Int) :
    Except String XCBDrawContext :=
  match c.fonts.lookup font_name with
  | none => .error ("unknown font: " ++ font_name)
  | some fd =>
    let fontClone := fd.set_size (point_size * pangoSCALE)
    let _ := fontClone
    .ok { c with font := some font_name }

/-- Method `DrawContext::color` for `XCBDrawContext`: convert the hex value and
set it as the cairo source colour. -/
def color (c : XCBDrawContext) (colorHex : Nat) : XCBDrawContext :=
  let rgb := (Color.new_from_hex colorHex).rgb
  { c with ctx := { c.ctx with
      ops := c.ctx.ops ++ [.setSourceRgb rgb.1 rgb.2.1 rgb.2.2] } }

/-- Method `DrawContext::translate` for `XCBDrawContext`. -/
def translate (c : XCBDrawContext) (x y : ℚ) : XCBDrawContext :=
  { c with ctx := c.ctx.translate x y }

/-- Method `DrawContext::rectangle` for `XCBDrawContext`: rectangle path plus
fill, recorded at device coordinates. -/
def rectangle (c : XCBDrawContext) (x y w h : ℚ) : XCBDrawContext :=
  { c with ctx := { c.ctx with
      ops := c.ctx.ops ++ [.fillRect (c.ctx.tx + x) (c.ctx.ty + y) w h] } }

/-- The font description `text` applies to the layout: `None` when no
active font is set; otherwise the registry snapshot entry for the active
name, where a missing entry models the `.unwrap()` panic. -/
def resolveActiveFont (c : XCBDrawContext) : Except TextError (Option FontDescription) :=
  match c.font with
  | none => .ok none
  | some f =>
    match c.fonts.lookup f with
    | some d => .ok (some d)
    | none => .error .panicUnwrap

/-- Method `DrawContext::text` for `XCBDrawContext`:
create a layout; apply the active font's stored description if set
(unchecked lookup); set the text and end-ellipsization; measure the
natural pixel size `(w, h)`; pin the layout box to `(w, h)` (times
`pango::SCALE`); translate by `(left, top)`, render, translate back; and
return the `f64 → usize` casts of `(w + left + right, h + top + bottom)`.
On either error path nothing has been drawn and no translation remains. -/
def text (bk : Backend) (c : XCBDrawContext) (s : String)
    (padding : ℚ × ℚ × ℚ × ℚ) : XCBDrawContext × Except TextError (Nat × Nat) :=
  if bk.layoutOk then
    match resolveActiveFont c with
    | .error e => (c, .error e)
    | .ok fd =>
      let wh := bk.measure fd s
      let w := wh.1
      let h := wh.2
      let lay : RenderOp := .showLayout (c.ctx.tx + padding.1) (c.ctx.ty + padding.2.2.1)
        fd s true (some (w * pangoSCALE)) (some (h * pangoSCALE))
      let ctx1 := c.ctx.translate padding.1 padding.2.2.1
      let ctx2 : Context := { ctx1 with ops := ctx1.ops ++ [lay] }
      let ctx3 := ctx2.translate (-padding.1) (-padding.2.2.1)
      let width := f64ToUsize ((w : ℚ) + padding.1 + padding.2.1)
      let height := f64ToUsize ((h : ℚ) + padding.2.2.1 + padding.2.2.2)
      ({ c with ctx := ctx3 }, .ok (width, height))
  else (c, .error .layoutError)

end DrawContext

/-- A concrete backend on which every external service succeeds and every
text measures as `(0, 0)`; used to instantiate theorems at explicit
inputs. -/
def bkGood : Backend :=
  { internAtomOracle := fun _ => some 7
    numScreens := 1
    visualOk := true
    surfaceOk := true
    layoutOk := true
    measure := fun _ _ => (0, 0) }

/-- A concrete drawing context with no active font and an empty snapshot,
bound to a 100×20 surface. -/
def ctx0 : XCBDrawContext :=
  { ctx := Context.new { drawable := 0, width := 100, height := 20 }
    font := none
    fonts := [] }

/-- A fresh `XCBDraw` with the single font `"X"` registered. -/
def drawX : XCBDraw :=
  Draw.register_font XCBDraw.new "X"

/-- State `drawX` after creating one 100×20 dock window (window id 0). -/
def drawX1 : XCBDraw :=
  (Draw.new_window bkGood drawX WindowType.Dock 100 20).1

/-- The context `context_for` hands out for window 0 of `drawX1`. -/
def ctxX0 : XCBDrawContext :=
  { ctx := Context.new { drawable := 0, width := 100, height := 20 }
    font := none
    fonts := [("X", FontDescription.from_string "X")] }

/-- State `ctxX0` after a successful `font("X", 12)` call: only the active-font
name is recorded. -/
def ctxX : XCBDrawContext :=
  { ctxX0 with font := some "X" }

/-- The `XCBDraw` state after one successful 5×7 dock `new_window` call on
a fresh draw under `bkGood` (window id 0). -/
def drawAfterOne : XCBDraw :=
  { conn :=
      { nextId := 1
        requests := [.createWindow 0 5 7, .internAtom "_NET_WM_WINDOW_TYPE",
          .internAtom "UTF8_STRING",
          .changeProperty 0 7 7 "_NET_WM_WINDOW_TYPE_DOCK",
          .mapWindow 0, .flush] }
    fonts := []
    surfaces := [(0, { drawable := 0, width := 5, height := 7 })] }

/-- The mutating `Draw` trait calls a caller can issue on an `XCBDraw`
(`context_for` and `screen_size` do not mutate the draw). -/
inductive DrawOp
  | newWindow (t : WindowType) (w h : Nat)
  | registerFont (name : String)
  | mapWin (id : WinId)
  | unmapWin (id : WinId)
  | flushConn
deriving DecidableEq, Repr

/-- Apply one `Draw` call; also return the window ids handed out to the
caller by a successful `new_window`. -/
def applyOp (bk : Backend) (d : XCBDraw) : DrawOp → XCBDraw × List WinId
  | .newWindow t w h =>
    match Draw.new_window bk d t w h with
    | (d', .ok id) => (d', [id])
    | (d', .error _) => (d', [])
  | .registerFont n => (Draw.register_font d n, [])
  | .mapWin id => (Draw.map_window d id, [])
  | .unmapWin id => (Draw.unmap_window d id, [])
  | .flushConn => (Draw.flush d, [])

/-- Run a sequence of `Draw` calls, collecting the ids returned by
`new_window`. -/
def runOps (bk : Backend) (d : XCBDraw) : List DrawOp → XCBDraw × List WinId
  | [] => (d, [])
  | op :: ops =>
    let st1 := applyOp bk d op
    let st2 := runOps bk st1.1 ops
    (st2.1, st1.2 ++ st2.2)

/-- The drawing contexts reachable from a `context_for` call through any
sequence of `font` / `color` / `translate` / `rectangle` / `text` calls
(a failed `font` call leaves the context unchanged, so only successful
ones step). -/
inductive CtxReach (bk : Backend) : XCBDrawContext → Prop
  | init (d : XCBDraw) (id : WinId) (c : XCBDrawContext) :
      Draw.context_for d id = .ok c → CtxReach bk c
  | fontStep (c c' : XCBDrawContext) (n : String) (sz : Int) :
      CtxReach bk c → DrawContext.font c n sz = .ok c' → CtxReach bk c'
  | colorStep (c : XCBDrawContext) (hex : Nat) :
      CtxReach bk c → CtxReach bk (DrawContext.color c hex)
  | translateStep (c : XCBDrawContext) (x y : ℚ) :
      CtxReach bk c → CtxReach bk (DrawContext.translate c x y)
  | rectangleStep (c : XCBDrawContext) (x y w h : ℚ) :
      CtxReach bk c → CtxReach bk (DrawContext.rectangle c x y w h)
  | textStep (c : XCBDrawContext) (s : String) (p : ℚ × ℚ × ℚ × ℚ) :
      CtxReach bk c → CtxReach bk (DrawContext.text bk c s p).1

/-! ## Theorems -/

/-- A channel value `a / 255` with `a ≤ 255` lies in the unit interval. -/
theorem channel_div_mem_unit (a : Nat) (ha : a ≤ 255) :
    0 ≤ (a : ℚ) / 255 ∧ (a : ℚ) / 255 ≤ 1 := by
  constructor
  · positivity
  · rw [div_le_one (by norm_num : (0 : ℚ) < 255)]
    exact_mod_cast ha

/-- The shifted red/green/blue channel extractions are at most 255. -/
theorem channel_le_255 (h : Nat) :
    (h &&& 0xFF0000) >>> 16 ≤ 255 ∧ (h &&& 0x00FF00) >>> 8 ≤ 255 ∧
      h &&& 0x0000FF ≤ 255 := by
  refine ⟨?_, ?_, ?_⟩
  · have h1 : h &&& 0xFF0000 ≤ 0xFF0000 := Nat.and_le_right
    have h2 : (h &&& 0xFF0000) >>> 16 = (h &&& 0xFF0000) / 2 ^ 16 :=
      Nat.shiftRight_eq_div_pow _ _
    have h3 : (h &&& 0xFF0000) / 2 ^ 16 ≤ 0xFF0000 / 2 ^ 16 := Nat.div_le_div_right h1
    norm_num at h3
    omega
  · have h1 : h &&& 0x00FF00 ≤ 0x00FF00 := Nat.and_le_right
    have h2 : (h &&& 0x00FF00) >>> 8 = (h &&& 0x00FF00) / 2 ^ 8 :=
      Nat.shiftRight_eq_div_pow _ _
    have h3 : (h &&& 0x00FF00) / 2 ^ 8 ≤ 0x00FF00 / 2 ^ 8 := Nat.div_le_div_right h1
    norm_num at h3
    omega
  · exact le_trans Nat.and_le_right (by norm_num)

/-- Reducing an input modulo `2^24` does not change any masked channel. -/
theorem mask_mod_two_pow_24 (h m : Nat) (hm : 0xFFFFFF &&& m = m) :
    h % 16777216 &&& m = h &&& m := by
  have e : h % 16777216 = h &&& 0xFFFFFF := by
    have := Nat.and_pow_two_sub_one_eq_mod h 24
    norm_num at this
    omega
  rw [e, Nat.and_assoc, hm]

/-- Association-list lookup through a cons cell succeeds exactly for the
new key or a key already present. -/
theorem lookup_cons_isSome {β : Type} (k id : Nat) (v : β) (l : List (Nat × β)) :
    (((k, v) :: l).lookup id).isSome ↔ id = k ∨ (l.lookup id).isSome := by
  simp only [List.lookup]
  cases h : (id == k) with
  | false =>
    have hne : ¬id = k := by simpa using h
    simp [hne]
  | true =>
    have heq : id = k := by simpa using h
    simp [heq]

/-- Lookup of the key just inserted returns the new binding. -/
theorem lookup_cons_self {α β : Type} [BEq α] [LawfulBEq α] (k : α) (v : β)
    (l : List (α × β)) : ((k, v) :: l).lookup k = some v := by
  simp [List.lookup]

/-- Lookup of any other key passes over an inserted binding. -/
theorem lookup_cons_ne {α β : Type} [BEq α] [LawfulBEq α] (k n : α) (v : β)
    (l : List (α × β)) (h : ¬n = k) : ((k, v) :: l).lookup n = l.lookup n := by
  simp only [List.lookup]
  cases hb : (n == k) with
  | false => rfl
  | true => exact absurd (by simpa using hb) h

/-- Call `new_window` either returns `Ok id` having prepended exactly one
binding `(id, surface)` to the surface registry, or fails leaving the
registry unchanged. -/
theorem new_window_surfaces (bk : Backend) (d : XCBDraw) (t : WindowType) (w h : Nat)
    (d' : XCBDraw) (r : Except String WinId)
    (hr : Draw.new_window bk d t w h = (d', r)) :
    (∃ id s, r = .ok id ∧ d'.surfaces = (id, s) :: d.surfaces) ∨
      (d'.surfaces = d.surfaces ∧ ∀ id, r ≠ .ok id) := by
  unfold Draw.new_window at hr
  by_cases hs : bk.numScreens = 0
  · rw [if_pos hs] at hr
    obtain ⟨h1, h2⟩ := Prod.mk.injEq .. ▸ hr
    subst h1; subst h2
    right
    simp
  · rw [if_neg hs] at hr
    cases hnc : new_cairo_surface bk d.conn t (usizeToI32 w) (usizeToI32 h) with
    | mk st' r' =>
      cases r' with
      | error e =>
        rw [hnc] at hr
        obtain ⟨h1, h2⟩ := Prod.mk.injEq .. ▸ hr
        subst h1; subst h2
        right
        simp
      | ok p =>
        rw [hnc] at hr
        obtain ⟨h1, h2⟩ := Prod.mk.injEq .. ▸ hr
        subst h1; subst h2
        exact Or.inl ⟨p.1, p.2, rfl, rfl⟩

/-- One `Draw` call preserves surface-registry membership and adds exactly
the ids it returned. -/
theorem applyOp_lookup (bk : Backend) (d : XCBDraw) (op : DrawOp) (id : WinId) :
    (((applyOp bk d op).1.surfaces.lookup id).isSome) ↔
      ((d.surfaces.lookup id).isSome ∨ id ∈ (applyOp bk d op).2) := by
  cases op with
  | newWindow t w h =>
    cases hnw : Draw.new_window bk d t w h with
    | mk d' r =>
      rcases new_window_surfaces bk d t w h d' r hnw with ⟨nid, s, hr, hsurf⟩ | ⟨hsurf, hne⟩
      · subst hr
        simp only [applyOp, hnw, hsurf, lookup_cons_isSome, List.mem_singleton]
        tauto
      · cases r with
        | ok i => exact absurd rfl (hne i)
        | error e => simp [applyOp, hnw, hsurf]
  | registerFont n => simp [applyOp, Draw.register_font]
  | mapWin i => simp [applyOp, Draw.map_window]
  | unmapWin i => simp [applyOp, Draw.unmap_window]
  | flushConn => simp [applyOp, Draw.flush]

/-- Over a whole call sequence, an id is in the surface registry exactly
when it was there initially or was returned by a `new_window` call. -/
theorem runOps_lookup_isSome (bk : Backend) (ops : List DrawOp) (d : XCBDraw) (id : WinId) :
    (((runOps bk d ops).1.surfaces.lookup id).isSome) ↔
      ((d.surfaces.lookup id).isSome ∨ id ∈ (runOps bk d ops).2) := by
  induction ops generalizing d with
  | nil => simp [runOps]
  | cons op ops ih =>
    have hstep := applyOp_lookup bk d op id
    simp only [runOps, List.mem_append]
    rw [ih (applyOp bk d op).1, hstep]
    tauto

/-- C3: starting from a fresh `XCBDraw` and any sequence of `Draw` calls,
`context_for` fails (with the uninitialised-surface error) on every id
never returned by `new_window`, and succeeds on every id `new_window` did
return, handing out a context with no active font and a snapshot of the
current font registry. -/
theorem C3_context_for_iff (bk : Backend) (ops : List DrawOp) (id : WinId)
    (d : XCBDraw) (ids : List WinId) (hrun : runOps bk XCBDraw.new ops = (d, ids)) :
    (id ∉ ids → Draw.context_for d id = .error "uninitilaised window surface") ∧
    (id ∈ ids → ∃ c, Draw.context_for d id = .ok c ∧ c.font = none ∧ c.fonts = d.fonts) := by
  have hiff := runOps_lookup_isSome bk ops XCBDraw.new id
  rw [hrun] at hiff
  simp only [XCBDraw.new, List.lookup_nil, Option.isSome_none, Bool.false_eq_true,
    false_or] at hiff
  constructor
  · intro hnot
    have hnone : d.surfaces.lookup id = none := by
      cases hl : d.surfaces.lookup id with
      | none => rfl
      | some s => exact absurd (hiff.mp (by simp [hl])) hnot
    simp [Draw.context_for, hnone]
  · intro hmem
    obtain ⟨s, hl⟩ := Option.isSome_iff_exists.mp (hiff.mpr hmem)
    exact ⟨{ ctx := Context.new s, font := none, fonts := d.fonts },
      by simp [Draw.context_for, hl], rfl, rfl⟩

/-- C3 witness: one successful `new_window` then `context_for` on the
returned id 0. -/
theorem C3_context_for_iff_witness :
    (0 ∉ [(0 : WinId)] →
      Draw.context_for drawAfterOne 0 = .error "uninitilaised window surface") ∧
    (0 ∈ [(0 : WinId)] →
      ∃ c, Draw.context_for drawAfterOne 0 = .ok c ∧ c.font = none ∧
        c.fonts = drawAfterOne.fonts) :=
  C3_context_for_iff bkGood [DrawOp.newWindow WindowType.Dock 5 7] 0 drawAfterOne
    [0] rfl

/-- C4: on a context handed out by `context_for`, `font` fails with the
unknown-font error exactly for names absent from the owning draw's
registry at `context_for` time (the context's snapshot), and succeeds for
every name that was present; re-registering a name afterwards leaves the
existing context's snapshot untouched, while a context obtained after the
re-registration sees the newly registered description. -/
theorem C4_font_snapshot (d : XCBDraw) (id : WinId) (c : XCBDrawContext)
    (hc : Draw.context_for d id = .ok c) :
    c.fonts = d.fonts ∧
    (∀ name size, (∃ c', DrawContext.font c name size = .ok c') ↔
      (d.fonts.lookup name).isSome) ∧
    (∀ name size, d.fonts.lookup name = none →
      DrawContext.font c name size = .error ("unknown font: " ++ name)) ∧
    (∀ m c₂, Draw.context_for (Draw.register_font d m) id = .ok c₂ →
      c.fonts = d.fonts ∧
      c₂.fonts.lookup m = some (FontDescription.from_string m) ∧
      ∀ n, ¬n = m → c₂.fonts.lookup n = d.fonts.lookup n) := by
  unfold Draw.context_for at hc
  cases hl : d.surfaces.lookup id with
  | none => rw [hl] at hc; exact absurd hc (by simp)
  | some s =>
    rw [hl] at hc
    have hceq : { ctx := Context.new s, font := none, fonts := d.fonts } = c := by
      simpa using hc
    subst hceq
    refine ⟨rfl, ?_, ?_, ?_⟩
    · intro name size
      cases hfn : d.fonts.lookup name with
      | none => simp [DrawContext.font, hfn]
      | some fd => simp [DrawContext.font, hfn]
    · intro name size hnone
      simp [DrawContext.font, hnone]
    · intro m c₂ hc₂
      simp only [Draw.register_font, Draw.context_for] at hc₂
      rw [hl] at hc₂
      have hceq₂ : { ctx := Context.new s, font := none,
                     fonts := (m, FontDescription.from_string m) :: d.fonts } = c₂ := by
        simpa using hc₂
      subst hceq₂
      exact ⟨rfl, lookup_cons_self m _ d.fonts,
        fun n hn => lookup_cons_ne m n _ d.fonts hn⟩

/-- C4 witness: on the registry `{"X"}` snapshotted by `context_for`,
`font "X"` succeeds and `font "Y"` fails with the unknown-font error. -/
theorem C4_font_snapshot_witness :
    (∃ c', DrawContext.font ctxX0 "X" 12 = .ok c') ∧
    DrawContext.font ctxX0 "Y" 12 = .error ("unknown font: " ++ "Y") :=
  ⟨((C4_font_snapshot drawX1 0 ctxX0 rfl).2.1 "X" 12).mpr (by decide),
    (C4_font_snapshot drawX1 0 ctxX0 rfl).2.2.1 "Y" 12 (by decide)⟩

/-- C7: in every successful execution of `create_window`, the
change-property request that sets `_NET_WM_WINDOW_TYPE` to the EWMH
string of the requested window type is issued strictly before the
map-window request for the new window. -/
theorem C7_property_set_before_map (bk : Backend) (st : XcbState) (t : WindowType)
    (width height : Nat) (st' : XcbState) (id : WinId)
    (hok : create_window bk st t width height = (st', .ok id)) :
    ∃ (prop typ : Nat) (pre mid post : List XRequest),
      st'.requests =
        pre ++ [.changeProperty id prop typ t.as_ewmh_str] ++ mid ++
          [.mapWindow id] ++ post := by
  unfold create_window intern_atom at hok
  cases h1 : bk.internAtomOracle "_NET_WM_WINDOW_TYPE" <;>
    cases h2 : bk.internAtomOracle "UTF8_STRING" <;> simp [h1, h2] at hok
  case some.some prop typ =>
    obtain ⟨hst, hid⟩ := hok
    subst hst
    subst hid
    exact ⟨prop, typ,
      st.requests ++ [.createWindow st.nextId width height,
        .internAtom "_NET_WM_WINDOW_TYPE", .internAtom "UTF8_STRING"],
      [], [.flush], by simp⟩

/-- C7 witness: a concrete successful `create_window` run. -/
theorem C7_property_set_before_map_witness :
    ∃ (prop typ : Nat) (pre mid post : List XRequest),
      (create_window bkGood { nextId := 0, requests := [] } WindowType.Dock 5 7).1.requests =
        pre ++ [.changeProperty 0 prop typ WindowType.Dock.as_ewmh_str] ++ mid ++
          [.mapWindow 0] ++ post :=
  C7_property_set_before_map bkGood { nextId := 0, requests := [] } WindowType.Dock 5 7
    (create_window bkGood { nextId := 0, requests := [] } WindowType.Dock 5 7).1 0 rfl

/-- Call `text` never changes the active-font name or the font snapshot of the
context, on any path. -/
theorem text_fields (bk : Backend) (c : XCBDrawContext) (s : String)
    (p : ℚ × ℚ × ℚ × ℚ) :
    (DrawContext.text bk c s p).1.font = c.font ∧
      (DrawContext.text bk c s p).1.fonts = c.fonts := by
  unfold DrawContext.text
  by_cases hb : bk.layoutOk
  · rw [if_pos hb]
    cases hres : DrawContext.resolveActiveFont c with
    | error e => simp [hres]
    | ok fd => simp [hres]
  · rw [if_neg hb]
    exact ⟨rfl, rfl⟩

/-- If the active font (when set) is a key of the snapshot, the unchecked
registry lookup inside `text` cannot panic. -/
theorem text_no_panic (bk : Backend) (c : XCBDrawContext)
    (hinv : ∀ n, c.font = some n → (c.fonts.lookup n).isSome) (s : String)
    (p : ℚ × ℚ × ℚ × ℚ) :
    (DrawContext.text bk c s p).2 ≠ .error .panicUnwrap := by
  unfold DrawContext.text
  by_cases hb : bk.layoutOk
  · rw [if_pos hb]
    cases hres : DrawContext.resolveActiveFont c with
    | ok fd => simp [hres]
    | error e =>
      exfalso
      unfold DrawContext.resolveActiveFont at hres
      cases hf : c.font with
      | none => rw [hf] at hres; simp at hres
      | some n =>
        rw [hf] at hres
        have hs := hinv n hf
        cases hfn : c.fonts.lookup n with
        | none => rw [hfn] at hs; simp at hs
        | some fd => simp [hfn] at hres
  · rw [if_neg hb]
    simp

/-- C9: every context reachable from `context_for` through `font`, `color`,
`translate`, `rectangle` and `text` calls keeps its active font (when set)
a key of its font snapshot, so the unchecked `.unwrap()` lookup performed
inside `text` can never panic. -/
theorem C9_active_font_safe (bk : Backend) (c : XCBDrawContext) (h : CtxReach bk c) :
    (∀ n, c.font = some n → (c.fonts.lookup n).isSome) ∧
    (∀ s p, (DrawContext.text bk c s p).2 ≠ .error .panicUnwrap) := by
  have hinv : ∀ n, c.font = some n → (c.fonts.lookup n).isSome := by
    induction h with
    | init d id c hc =>
      unfold Draw.context_for at hc
      cases hl : d.surfaces.lookup id with
      | none => rw [hl] at hc; exact absurd hc (by simp)
      | some s =>
        rw [hl] at hc
        have hceq : { ctx := Context.new s, font := none, fonts := d.fonts } = c := by
          simpa using hc
        subst hceq
        intro n hn
        simp at hn
    | fontStep c c' nm sz hr hf ih =>
      unfold DrawContext.font at hf
      cases hfn : c.fonts.lookup nm with
      | none => rw [hfn] at hf; exact absurd hf (by simp)
      | some fd =>
        rw [hfn] at hf
        have hceq : { c with font := some nm } = c' := by simpa using hf
        subst hceq
        intro n hn
        have hnm : nm = n := by simpa using hn
        subst hnm
        simp [hfn]
    | colorStep c hex hr ih =>
      intro n hn
      simp only [DrawContext.color] at hn ⊢
      exact ih n hn
    | translateStep c x y hr ih =>
      intro n hn
      simp only [DrawContext.translate] at hn ⊢
      exact ih n hn
    | rectangleStep c x y w hh hr ih =>
      intro n hn
      simp only [DrawContext.rectangle] at hn ⊢
      exact ih n hn
    | textStep c s p hr ih =>
      intro n hn
      obtain ⟨hf, hfs⟩ := text_fields bk c s p
      rw [hf] at hn
      rw [hfs]
      exact ih n hn
  exact ⟨hinv, fun s p => text_no_panic bk c hinv s p⟩

/-- C9 witness: a concrete reachable context (obtained via `context_for`
then `font "X" 12`) on which a `text` call does not hit the panic path. -/
theorem C9_active_font_safe_witness :
    (DrawContext.text bkGood ctxX "hi" (1, 2, 3, 4)).2 ≠ .error .panicUnwrap :=
  (C9_active_font_safe bkGood ctxX
    (CtxReach.fontStep ctxX0 ctxX "X" 12 (CtxReach.init drawX1 0 ctxX0 rfl) rfl)).2
    "hi" (1, 2, 3, 4)

/-- C6: every `text` call leaves the cairo translation exactly where it
was — it translates by `(left, top)`, renders the layout at the translated
origin, and translates back by `(-left, -top)` — and on the error paths no
translation happens at all. -/
theorem C6_text_restores_origin (bk : Backend) (c : XCBDrawContext) (s : String)
    (l r t b : ℚ) (c' : XCBDrawContext) (res : Except TextError (Nat × Nat))
    (h : DrawContext.text bk c s (l, r, t, b) = (c', res)) :
    c'.ctx.tx = c.ctx.tx ∧ c'.ctx.ty = c.ctx.ty ∧
    (∀ e, res = .ok e → ∃ fd,
      DrawContext.resolveActiveFont c = .ok fd ∧
      c'.ctx.ops = c.ctx.ops ++
        [RenderOp.showLayout (c.ctx.tx + l) (c.ctx.ty + t) fd s true
          (some ((bk.measure fd s).1 * pangoSCALE))
          (some ((bk.measure fd s).2 * pangoSCALE))]) := by
  unfold DrawContext.text at h
  by_cases hb : bk.layoutOk
  · rw [if_pos hb] at h
    cases hres : DrawContext.resolveActiveFont c with
    | error e =>
      rw [hres] at h
      simp only [Prod.mk.injEq] at h
      obtain ⟨h1, h2⟩ := h
      subst h1; subst h2
      exact ⟨rfl, rfl, fun e' he => by simp at he⟩
    | ok fd =>
      rw [hres] at h
      simp only [Prod.mk.injEq] at h
      obtain ⟨h1, h2⟩ := h
      subst h1; subst h2
      refine ⟨by simp [Context.translate], by simp [Context.translate], ?_⟩
      intro e' he
      exact ⟨fd, rfl, by simp [Context.translate]⟩
  · rw [if_neg hb] at h
    simp only [Prod.mk.injEq] at h
    obtain ⟨h1, h2⟩ := h
    subst h1; subst h2
    exact ⟨rfl, rfl, fun e' he => by simp at he⟩

/-- C6 witness: a concrete `text` call with padding `(1, 2, 3, 4)` ends
with the original (identity) translation. -/
theorem C6_text_restores_origin_witness :
    (DrawContext.text bkGood ctx0 "a" (1, 2, 3, 4)).1.ctx.tx = ctx0.ctx.tx ∧
    (DrawContext.text bkGood ctx0 "a" (1, 2, 3, 4)).1.ctx.ty = ctx0.ctx.ty ∧
    (∀ e, (DrawContext.text bkGood ctx0 "a" (1, 2, 3, 4)).2 = .ok e → ∃ fd,
      DrawContext.resolveActiveFont ctx0 = .ok fd ∧
      (DrawContext.text bkGood ctx0 "a" (1, 2, 3, 4)).1.ctx.ops = ctx0.ctx.ops ++
        [RenderOp.showLayout (ctx0.ctx.tx + 1) (ctx0.ctx.ty + 3) fd "a" true
          (some ((bkGood.measure fd "a").1 * pangoSCALE))
          (some ((bkGood.measure fd "a").2 * pangoSCALE))]) :=
  C6_text_restores_origin bkGood ctx0 "a" 1 2 3 4 _ _ rfl

/-- On success, `text` returns the `f64 → usize` casts of the padded
measured size. -/
theorem text_extent (bk : Backend) (c : XCBDrawContext) (s : String)
    (l r t b : ℚ) (c' : XCBDrawContext) (wret hret : Nat)
    (h : DrawContext.text bk c s (l, r, t, b) = (c', .ok (wret, hret))) :
    ∃ fd, DrawContext.resolveActiveFont c = .ok fd ∧
      wret = f64ToUsize (((bk.measure fd s).1 : ℚ) + l + r) ∧
      hret = f64ToUsize (((bk.measure fd s).2 : ℚ) + t + b) := by
  unfold DrawContext.text at h
  by_cases hb : bk.layoutOk
  · rw [if_pos hb] at h
    cases hres : DrawContext.resolveActiveFont c with
    | error e => rw [hres] at h; simp at h
    | ok fd =>
      rw [hres] at h
      simp only [Prod.mk.injEq, Except.ok.injEq] at h
      obtain ⟨h1, h2, h3⟩ := h
      exact ⟨fd, rfl, h2.symm, h3.symm⟩
  · rw [if_neg hb] at h
    simp at h

/-- C2 (amended): on every successful `text(s, (left, right, top, bottom))`
call the returned extent is the `f64 → usize` cast (truncation toward
zero, saturating at `0` and `usize::MAX`) of `(w + left + right,
h + top + bottom)`, where `(w, h)` is the measured natural pixel size of
`s` under the resolved active (or default) font. -/
theorem C2_text_extent_cast (bk : Backend) (c : XCBDrawContext) (s : String)
    (l r t b : ℚ) (c' : XCBDrawContext) (wret hret : Nat)
    (h : DrawContext.text bk c s (l, r, t, b) = (c', .ok (wret, hret))) :
    ∃ fd, DrawContext.resolveActiveFont c = .ok fd ∧
      wret = f64ToUsize (((bk.measure fd s).1 : ℚ) + l + r) ∧
      hret = f64ToUsize (((bk.measure fd s).2 : ℚ) + t + b) :=
  text_extent bk c s l r t b c' wret hret h

/-- C2 counterexample: with a backend measuring `"a"` as `(0, 0)` and
fractional padding `left = 1/2`, `text` succeeds returning width `0`,
which differs from the claimed exact extent `w + left + right = 1/2`. -/
theorem C2_fractional_padding_truncated :
    (DrawContext.text bkGood ctx0 "a" (1 / 2, 0, 0, 0)).2 = Except.ok (0, 0) ∧
    DrawContext.resolveActiveFont ctx0 = .ok none ∧
    bkGood.measure none "a" = (0, 0) ∧
    ¬((0 : ℚ) = ((bkGood.measure none "a").1 : ℚ) + 1 / 2 + 0) := by
  refine ⟨?_, rfl, rfl, ?_⟩
  · simp only [DrawContext.text, DrawContext.resolveActiveFont, ctx0, bkGood, f64ToUsize,
      Context.translate, Context.new]
    norm_num
  · norm_num [bkGood]

/-- C2 witness: integral padding `(2, 3, 4, 5)` on a zero-measure backend
gives extent `(5, 9)`. -/
theorem C2_text_extent_cast_witness :
    ∃ fd, DrawContext.resolveActiveFont ctx0 = .ok fd ∧
      (5 : Nat) = f64ToUsize (((bkGood.measure fd "a").1 : ℚ) + 2 + 3) ∧
      (9 : Nat) = f64ToUsize (((bkGood.measure fd "a").2 : ℚ) + 4 + 5) :=
  C2_text_extent_cast bkGood ctx0 "a" 2 3 4 5
    (DrawContext.text bkGood ctx0 "a" (2, 3, 4, 5)).1 5 9 (by
      rw [Prod.ext_iff]
      refine ⟨rfl, ?_⟩
      simp only [DrawContext.text, DrawContext.resolveActiveFont, ctx0, bkGood, f64ToUsize,
        Context.translate, Context.new]
      norm_num
      decide)

/-- C8 (amended): when the backend measures the empty string as `(0, 0)`
under the context's resolved font, a successful `text("", padding)` call
returns the `f64 → usize` cast of the padding sums `(left + right,
top + bottom)`. -/
theorem C8_empty_text_extent (bk : Backend) (c : XCBDrawContext)
    (l r t b : ℚ) (c' : XCBDrawContext) (wret hret : Nat)
    (fd : Option FontDescription)
    (hfd : DrawContext.resolveActiveFont c = .ok fd)
    (hm : bk.measure fd "" = (0, 0))
    (h : DrawContext.text bk c "" (l, r, t, b) = (c', .ok (wret, hret))) :
    wret = f64ToUsize (l + r) ∧ hret = f64ToUsize (t + b) := by
  obtain ⟨fd', hfd', hw, hh⟩ := text_extent bk c "" l r t b c' wret hret h
  rw [hfd] at hfd'
  have hfdeq : fd = fd' := by simpa using hfd'
  subst hfdeq
  constructor
  · rw [hw, hm]
    norm_num
  · rw [hh, hm]
    norm_num

/-- C8 counterexample: fractional padding `left = 1/2` on the empty string
(measured `(0, 0)`) yields width `0`, not the claimed padding sum `1/2`. -/
theorem C8_fractional_padding_truncated :
    (DrawContext.text bkGood ctx0 "" (1 / 2, 0, 0, 0)).2 = Except.ok (0, 0) ∧
    bkGood.measure none "" = (0, 0) ∧
    ¬((0 : ℚ) = 1 / 2 + 0) := by
  refine ⟨?_, rfl, ?_⟩
  · simp only [DrawContext.text, DrawContext.resolveActiveFont, ctx0, bkGood, f64ToUsize,
      Context.translate, Context.new]
    norm_num
  · norm_num

/-- C8 witness: empty string with integral padding `(2, 3, 4, 5)` gives
extent `(5, 9)` — the padding sums. -/
theorem C8_empty_text_extent_witness :
    (5 : Nat) = f64ToUsize (2 + 3) ∧ (9 : Nat) = f64ToUsize (4 + 5) :=
  C8_empty_text_extent bkGood ctx0 2 3 4 5
    (DrawContext.text bkGood ctx0 "" (2, 3, 4, 5)).1 5 9 none rfl rfl (by
      rw [Prod.ext_iff]
      refine ⟨rfl, ?_⟩
      simp only [DrawContext.text, DrawContext.resolveActiveFont, ctx0, bkGood, f64ToUsize,
        Context.translate, Context.new]
      norm_num
      decide)

/-- C1 (code bug): after a successful `font("X", 12)`, `text` applies the
unscaled registry description `from_string "X"` to the layout — the
point-size-scaled clone built inside `font` was dropped, so the requested
size never reaches the layout. -/
theorem C1_point_size_never_applied :
    DrawContext.font ctxX0 "X" 12 = .ok ctxX ∧
    (DrawContext.text bkGood ctxX "hi" (0, 0, 0, 0)).1.ctx.ops =
      [RenderOp.showLayout 0 0 (some (FontDescription.from_string "X")) "hi" true
        (some 0) (some 0)] ∧
    FontDescription.from_string "X" ≠
      (FontDescription.from_string "X").set_size (12 * pangoSCALE) := by
  refine ⟨rfl, ?_, ?_⟩
  · simp only [DrawContext.text, DrawContext.resolveActiveFont, ctxX, ctxX0, bkGood,
      f64ToUsize, Context.translate, Context.new]
    norm_num [List.lookup, FontDescription.from_string, pangoSCALE]
  · decide

/-- Cast `i32 as u16` of `usize as i32` is reduction mod `2^16`. -/
theorem i32ToU16_usizeToI32 (w : Nat) : i32ToU16 (usizeToI32 w) = w % 2 ^ 16 := by
  simp only [usizeToI32, i32ToU16]
  have hmod : w % 2 ^ 16 = w % 2 ^ 32 % 2 ^ 16 := (Nat.mod_mod_of_dvd w (by norm_num)).symm
  rw [hmod]
  split
  · omega
  · omega

/-- Cast `usize as i32` is the identity exactly below `2^31`. -/
theorem usizeToI32_eq_self_iff (w : Nat) : usizeToI32 w = (w : Int) ↔ w < 2 ^ 31 := by
  simp only [usizeToI32]
  split
  · constructor
    · intro h
      omega
    · intro h
      omega
  · constructor
    · intro h
      omega
    · intro h
      omega

/-- The `u16` window dimension agrees with the `i32` surface dimension
exactly when the low 32 bits of the request are below `2^16`. -/
theorem dims_eq_iff (w : Nat) :
    ((w % 2 ^ 16 : Nat) : Int) = usizeToI32 w ↔ w % 2 ^ 32 < 2 ^ 16 := by
  simp only [usizeToI32]
  have hmod : w % 2 ^ 16 = w % 2 ^ 32 % 2 ^ 16 := (Nat.mod_mod_of_dvd w (by norm_num)).symm
  rw [hmod]
  split <;> omega

/-- A successful `create_window` call appends exactly the six requests of
the creation protocol. -/
theorem create_window_ok (bk : Backend) (st : XcbState) (wt : WindowType)
    (width height : Nat) (st' : XcbState) (id : WinId)
    (hok : create_window bk st wt width height = (st', .ok id)) :
    id = st.nextId ∧ ∃ prop typ, st'.requests =
      st.requests ++ [.createWindow id width height, .internAtom "_NET_WM_WINDOW_TYPE",
        .internAtom "UTF8_STRING", .changeProperty id prop typ wt.as_ewmh_str,
        .mapWindow id, .flush] := by
  unfold create_window intern_atom at hok
  cases h1 : bk.internAtomOracle "_NET_WM_WINDOW_TYPE" <;>
    cases h2 : bk.internAtomOracle "UTF8_STRING" <;> simp [h1, h2] at hok
  case some.some prop typ =>
    obtain ⟨hst, hid⟩ := hok
    subst hst
    subst hid
    exact ⟨rfl, prop, typ, by simp⟩

/-- A successful `new_cairo_surface` call created the window through
`create_window` with the dimensions cast to `u16`, and the surface with
the `i32` dimensions. -/
theorem new_cairo_surface_ok (bk : Backend) (st : XcbState) (wt : WindowType)
    (width height : Int) (st' : XcbState) (id : WinId) (s : XCBSurface)
    (hok : new_cairo_surface bk st wt width height = (st', .ok (id, s))) :
    s = { drawable := id, width := width, height := height } ∧
    create_window bk st wt (i32ToU16 width) (i32ToU16 height) = (st', .ok id) := by
  unfold new_cairo_surface at hok
  cases hcw : create_window bk st wt (i32ToU16 width) (i32ToU16 height) with
  | mk st2 r =>
    rw [hcw] at hok
    cases r with
    | error e => simp at hok
    | ok id2 =>
      by_cases hv : bk.visualOk
      · by_cases hsf : bk.surfaceOk
        · simp [hv, hsf] at hok
          obtain ⟨h1, h2, h3⟩ := hok
          subst h1; subst h2; subst h3
          exact ⟨rfl, rfl⟩
        · simp [hv, hsf] at hok
      · simp [hv] at hok

/-- A successful `new_window` call went through `new_cairo_surface` with
the `usize as i32` dimensions and recorded the returned surface. -/
theorem new_window_ok (bk : Backend) (d : XCBDraw) (t : WindowType) (w h : Nat)
    (d' : XCBDraw) (id : WinId)
    (hok : Draw.new_window bk d t w h = (d', .ok id)) :
    ∃ st' s, new_cairo_surface bk d.conn t (usizeToI32 w) (usizeToI32 h) =
        (st', .ok (id, s)) ∧
      d' = { d with conn := st', surfaces := (id, s) :: d.surfaces } := by
  unfold Draw.new_window at hok
  by_cases hs : bk.numScreens = 0
  · rw [if_pos hs] at hok
    simp at hok
  · rw [if_neg hs] at hok
    cases hnc : new_cairo_surface bk d.conn t (usizeToI32 w) (usizeToI32 h) with
    | mk st2 r =>
      rw [hnc] at hok
      cases r with
      | error e => simp at hok
      | ok p =>
        simp at hok
        obtain ⟨h1, h2⟩ := hok
        subst h1
        subst h2
        exact ⟨st2, p.2, by simp, rfl⟩

/-- C10 (amended): a successful `new_window(t, w, h)` sends the display
server a create-window request with the `u16` dimensions `(w mod 2^16,
h mod 2^16)` while binding a surface with the `i32` (two's-complement
wrapped) dimensions; the surface dimension equals `w` exactly when
`w < 2^31`, and window and surface dimensions agree exactly when
`w mod 2^32 < 2^16` — in particular whenever `w < 2^16`, but also for
larger `w` whose bits 16–31 vanish. -/
theorem C10_new_window_casts (bk : Backend) (d : XCBDraw) (t : WindowType)
    (w h : Nat) (d' : XCBDraw) (id : WinId)
    (hok : Draw.new_window bk d t w h = (d', .ok id)) :
    (∃ pre post, d'.conn.requests =
      pre ++ [.createWindow id (w % 2 ^ 16) (h % 2 ^ 16)] ++ post) ∧
    d'.surfaces.lookup id =
      some { drawable := id, width := usizeToI32 w, height := usizeToI32 h } ∧
    (usizeToI32 w = (w : Int) ↔ w < 2 ^ 31) ∧
    (((w % 2 ^ 16 : Nat) : Int) = usizeToI32 w ↔ w % 2 ^ 32 < 2 ^ 16) ∧
    (w < 2 ^ 16 → ((w % 2 ^ 16 : Nat) : Int) = usizeToI32 w) := by
  obtain ⟨st', s, hnc, hd⟩ := new_window_ok bk d t w h d' id hok
  obtain ⟨hs, hcw⟩ := new_cairo_surface_ok bk d.conn t (usizeToI32 w) (usizeToI32 h)
    st' id s hnc
  obtain ⟨hid, prop, typ, hreq⟩ := create_window_ok bk d.conn t
    (i32ToU16 (usizeToI32 w)) (i32ToU16 (usizeToI32 h)) st' id hcw
  subst hd
  subst hs
  refine ⟨⟨d.conn.requests,
    [.internAtom "_NET_WM_WINDOW_TYPE", .internAtom "UTF8_STRING",
      .changeProperty id prop typ t.as_ewmh_str, .mapWindow id, .flush], ?_⟩,
    ?_, usizeToI32_eq_self_iff w, dims_eq_iff w, ?_⟩
  · rw [hreq, i32ToU16_usizeToI32, i32ToU16_usizeToI32]
    simp
  · exact lookup_cons_self id _ d.surfaces
  · intro h16
    exact (dims_eq_iff w).mpr (by omega)

/-- C10 counterexample: `new_window` with `w = 2^32` creates the server
window with width `0` and the surface with width `0` (not `2^32`), so the
two agree even though `w ≥ 2^16`. -/
theorem C10_large_width_wraps :
    (Draw.new_window bkGood XCBDraw.new WindowType.Dock (2 ^ 32) 1).2 = Except.ok 0 ∧
    (Draw.new_window bkGood XCBDraw.new WindowType.Dock (2 ^ 32) 1).1.surfaces.lookup 0 =
      some { drawable := 0, width := 0, height := 1 } ∧
    (Draw.new_window bkGood XCBDraw.new WindowType.Dock (2 ^ 32) 1).1.conn.requests.head? =
      some (XRequest.createWindow 0 0 1) ∧
    ((0 : Int) ≠ ((2 ^ 32 : Nat) : Int)) ∧
    (2 ^ 16 : Nat) ≤ 2 ^ 32 := by
  refine ⟨rfl, rfl, rfl, by norm_num, by norm_num⟩

/-- C10 witness: a small `new_window(5, 7)` — the `u16` and `i32` casts
agree with the requested dimensions. -/
theorem C10_new_window_casts_witness :
    (∃ pre post, drawAfterOne.conn.requests =
      pre ++ [.createWindow 0 (5 % 2 ^ 16) (7 % 2 ^ 16)] ++ post) ∧
    drawAfterOne.surfaces.lookup 0 =
      some { drawable := 0, width := usizeToI32 5, height := usizeToI32 7 } ∧
    (usizeToI32 5 = ((5 : Nat) : Int) ↔ (5 : Nat) < 2 ^ 31) ∧
    ((((5 : Nat) % 2 ^ 16 : Nat) : Int) = usizeToI32 5 ↔ (5 : Nat) % 2 ^ 32 < 2 ^ 16) ∧
    ((5 : Nat) < 2 ^ 16 → (((5 : Nat) % 2 ^ 16 : Nat) : Int) = usizeToI32 5) :=
  C10_new_window_casts bkGood XCBDraw.new WindowType.Dock 5 7 drawAfterOne 0 rfl

/-- C5: every channel produced by `Color::new_from_hex` lies in `[0, 1]`;
the pure red/green/blue inputs yield `(1,0,0)`, `(0,1,0)`, `(0,0,1)`; and
bits above bit 23 are ignored: `new_from_hex h = new_from_hex (h % 2^24)`
for every input. -/
theorem C5_new_from_hex_channels (h : Nat) :
    (0 ≤ (Color.new_from_hex h).r ∧ (Color.new_from_hex h).r ≤ 1 ∧
      0 ≤ (Color.new_from_hex h).g ∧ (Color.new_from_hex h).g ≤ 1 ∧
      0 ≤ (Color.new_from_hex h).b ∧ (Color.new_from_hex h).b ≤ 1) ∧
    (Color.new_from_hex 0xFF0000).rgb = (1, 0, 0) ∧
    (Color.new_from_hex 0x00FF00).rgb = (0, 1, 0) ∧
    (Color.new_from_hex 0x0000FF).rgb = (0, 0, 1) ∧
    Color.new_from_hex h = Color.new_from_hex (h % 2 ^ 24) := by
  obtain ⟨hr, hg, hb⟩ := channel_le_255 h
  obtain ⟨hr0, hr1⟩ := channel_div_mem_unit _ hr
  obtain ⟨hg0, hg1⟩ := channel_div_mem_unit _ hg
  obtain ⟨hb0, hb1⟩ := channel_div_mem_unit _ hb
  refine ⟨⟨hr0, hr1, hg0, hg1, hb0, hb1⟩, ?_, ?_, ?_, ?_⟩
  · have e1 : ((0xFF0000 &&& 0xFF0000) >>> 16 : Nat) = 255 := by decide
    have e2 : ((0xFF0000 &&& 0x00FF00) >>> 8 : Nat) = 0 := by decide
    have e3 : (0xFF0000 &&& 0x0000FF : Nat) = 0 := by decide
    simp [Color.new_from_hex, Color.rgb, e1, e2, e3]
  · have e1 : ((0x00FF00 &&& 0xFF0000) >>> 16 : Nat) = 0 := by decide
    have e2 : ((0x00FF00 &&& 0x00FF00) >>> 8 : Nat) = 255 := by decide
    have e3 : (0x00FF00 &&& 0x0000FF : Nat) = 0 := by decide
    simp [Color.new_from_hex, Color.rgb, e1, e2, e3]
  · have e1 : ((0x0000FF &&& 0xFF0000) >>> 16 : Nat) = 0 := by decide
    have e2 : ((0x0000FF &&& 0x00FF00) >>> 8 : Nat) = 0 := by decide
    have e3 : (0x0000FF &&& 0x0000FF : Nat) = 255 := by decide
    simp [Color.new_from_hex, Color.rgb, e1, e2, e3]
  · have m1 := mask_mod_two_pow_24 h 0xFF0000 (by decide)
    have m2 := mask_mod_two_pow_24 h 0x00FF00 (by decide)
    have m3 := mask_mod_two_pow_24 h 0x0000FF (by decide)
    simp [Color.new_from_hex, m1, m2, m3]

end Penrose
